import Mathlib

/-!
Verification development for the Multi-SrcHealthDatIntegHub-v2 repository.

The frontend store, API client and rendering components are embedded from
the TypeScript sources under frontend/src (queryStore.ts, lib/api.ts,
components/query/QueryResult.tsx, components/query/QueryInput.tsx).
The backend RAG pipeline (domain classifier, filter builder, context
assembler, answer generator, orchestrator) is not present in the source
snapshot; those components are modelled from the specification, and each
such definition is marked in its doc comment.

Strings stay Lean strings; JavaScript numbers that carry scores and
elapsed seconds are modelled as rationals; JavaScript truthiness of a
string (empty string is falsy) is made explicit at each use site.
-/

namespace HealthHub

/-- From frontend/src/lib/types.ts: one retrieved source in a query result. -/
structure Source where
  id : String
  score : Rat
  domain : String
  source : String
deriving DecidableEq, Repr

/-- From frontend/src/lib/types.ts: the result returned by POST /api/query. -/
structure QueryResult where
  question : String
  answer : String
  sources : List Source
  domains_searched : List String
  query_time_seconds : Rat
deriving DecidableEq, Repr

/-- From frontend/src/lib/types.ts: one persisted history entry. -/
structure QueryHistoryItem where
  id : String
  question : String
  answer : String
  sources_count : Nat
  query_time_seconds : Rat
  timestamp : String
  bookmarked : Bool
deriving DecidableEq, Repr

/-- From frontend/src/lib/types.ts: the fixed list of healthcare domains. -/
def DOMAINS : List String :=
  ["eligibility", "claims", "benefits", "pharmacy", "compliance", "providers"]

/-- The request body built by api.query in frontend/src/lib/api.ts. -/
structure QueryRequest where
  question : String
  top_k : Nat
  domain_filter : Option String
  source_type_filter : Option String
  classification_filter : Option String
deriving DecidableEq, Repr

/-- JavaScript `x || null` on a string-or-undefined value: undefined and
the empty string both become null, every other string passes through. -/
def jsOrNull (x : Option String) : Option String :=
  match x with
  | none => none
  | some v => if v = "" then none else some v

/-- JavaScript `v || undefined` on a string: the empty string becomes
undefined, every other string passes through. -/
def jsUndef (v : String) : Option String :=
  if v = "" then none else some v

/-- api.query from frontend/src/lib/api.ts: builds the POST /api/query
body. The TypeScript default parameter `topK = 10` is modelled by an
optional argument defaulted with getD. -/
def apiQuery (question : String) (topK : Option Nat)
    (domainFilter sourceTypeFilter classificationFilter : Option String) :
    QueryRequest :=
  { question := question
    top_k := topK.getD 10
    domain_filter := jsOrNull domainFilter
    source_type_filter := jsOrNull sourceTypeFilter
    classification_filter := jsOrNull classificationFilter }

/-- The zustand store state from frontend/src/stores/queryStore.ts. -/
structure QueryStoreState where
  currentQuery : String
  isLoading : Bool
  currentResult : Option QueryResult
  error : Option String
  domainFilter : String
  sourceTypeFilter : String
  classificationFilter : String
  history : List QueryHistoryItem
deriving DecidableEq, Repr

/-- The initial store state from frontend/src/stores/queryStore.ts. -/
def initialState : QueryStoreState :=
  { currentQuery := ""
    isLoading := false
    currentResult := none
    error := none
    domainFilter := ""
    sourceTypeFilter := ""
    classificationFilter := ""
    history := [] }

/-- The request executeQuery sends: api.query(question, 10,
domainFilter || undefined, sourceTypeFilter || undefined,
classificationFilter || undefined), reading the filters from the store. -/
def executeQueryRequest (question : String) (s : QueryStoreState) : QueryRequest :=
  apiQuery question (some 10)
    (jsUndef s.domainFilter) (jsUndef s.sourceTypeFilter)
    (jsUndef s.classificationFilter)

/-- The synchronous head of executeQuery: set isLoading, clear error,
record the question. -/
def executeQueryStart (question : String) (s : QueryStoreState) : QueryStoreState :=
  { s with isLoading := true, error := none, currentQuery := question }

/-- The history item built in executeQuery from a successful result:
id from crypto.randomUUID(), timestamp from new Date(), the rest copied
from the result, bookmarked false. -/
def mkHistoryItem (newId timestamp : String) (r : QueryResult) : QueryHistoryItem :=
  { id := newId
    question := r.question
    answer := r.answer
    sources_count := r.sources.length
    query_time_seconds := r.query_time_seconds
    timestamp := timestamp
    bookmarked := false }

/-- The continuation of executeQuery once api.query settles: on success
install the result, stop loading and prepend a history item capped with
slice(0, 100); on failure record the message and stop loading. -/
def executeQueryFinish (outcome : Except String QueryResult)
    (newId timestamp : String) (s : QueryStoreState) : QueryStoreState :=
  match outcome with
  | Except.ok r =>
      { s with currentResult := some r
               isLoading := false
               history := (mkHistoryItem newId timestamp r :: s.history).take 100 }
  | Except.error msg =>
      { s with error := some msg, isLoading := false }

/-- The per-item function of toggleBookmark in queryStore.ts:
item.id === id ? { ...item, bookmarked: !item.bookmarked } : item. -/
def toggleItem (uid : String) (item : QueryHistoryItem) : QueryHistoryItem :=
  if item.id = uid then { item with bookmarked := !item.bookmarked } else item

/-- toggleBookmark on the history list from queryStore.ts: map over the
items, flipping bookmarked on those whose id matches. -/
def toggleBookmarkList (uid : String) (h : List QueryHistoryItem) :
    List QueryHistoryItem :=
  h.map (toggleItem uid)

/-- The store action toggleBookmark. -/
def toggleBookmark (uid : String) (s : QueryStoreState) : QueryStoreState :=
  { s with history := toggleBookmarkList uid s.history }

/-- The store action deleteHistoryItem: filter keeps items whose id
differs. -/
def deleteHistoryItem (uid : String) (s : QueryStoreState) : QueryStoreState :=
  { s with history := s.history.filter (fun item => item.id ≠ uid) }

/-- The store action clearHistory. -/
def clearHistory (s : QueryStoreState) : QueryStoreState :=
  { s with history := [] }

/-- What the QueryResult component renders, from
frontend/src/components/query/QueryResult.tsx: skeleton while loading,
an error card when error is truthy, nothing when there is no current
result, else the answer with its sources. -/
inductive QueryView where
  | loading : QueryView
  | errorView : String → QueryView
  | empty : QueryView
  | resultView : QueryResult → QueryView
deriving DecidableEq, Repr

/-- The branch structure of the QueryResult component: `if (isLoading)`,
then `if (error)` (JavaScript truthiness: the empty string is falsy),
then `if (!currentResult) return null`, else render the result. -/
def renderQueryResult (s : QueryStoreState) : QueryView :=
  if s.isLoading then QueryView.loading
  else
    match s.error with
    | some msg => if msg = "" then
        (match s.currentResult with
         | none => QueryView.empty
         | some r => QueryView.resultView r)
      else QueryView.errorView msg
    | none =>
      match s.currentResult with
      | none => QueryView.empty
      | some r => QueryView.resultView r

/-- The option values offered by the classification select in
QueryInput.tsx: All classifications (empty), PII, public. -/
def classificationOptions : List String := ["", "PII", "public"]

/-- The option values offered by the source type select in
QueryInput.tsx. -/
def sourceTypeOptions : List String := ["", "internal", "external"]

/-- The option values offered by the domain select in QueryInput.tsx. -/
def domainOptions : List String := "" :: DOMAINS

/-- JavaScript String.prototype.trim: drop whitespace from both ends. -/
def jsTrim (s : String) : String :=
  String.mk
    (((s.toList.dropWhile Char.isWhitespace).reverse.dropWhile
        Char.isWhitespace).reverse)

/-- handleSubmit from QueryInput.tsx: submit the trimmed question only
when the trimmed text is truthy (nonempty) and not loading; returns the
question passed to executeQuery, or none when executeQuery is not
called. -/
def handleSubmit (s : QueryStoreState) : Option String :=
  if jsTrim s.currentQuery ≠ "" ∧ s.isLoading = false then
    some (jsTrim s.currentQuery)
  else none

/-! ### The backend RAG pipeline, modelled from the specification

The backend sources (rag/query_engine.py, ingestion/taxonomy.py) are not
in the snapshot; the definitions below are modelled from the
specification sections on the domain classifier, filter builder, context
assembler, answer generator and orchestrator. -/

/-- Modelled from the spec: a retrievable document with its metadata
(the Document record of the data model; produced by ingestion). -/
structure Document where
  id : String
  text : String
  domain : String
  sourceType : String
  classification : String
  sourcePath : String
deriving DecidableEq, Repr

/-- Modelled from the spec: one retrieval result pairing a document with
its similarity score. -/
structure MatchRec where
  document : Document
  similarityScore : Rat
deriving DecidableEq, Repr

/-- Modelled from the spec: one entry of the assembled context — a
1-based citation index, the truncated document text and the document
metadata. -/
structure ContextEntry where
  citationIndex : Nat
  text : String
  document : Document
deriving DecidableEq, Repr

/-- Lowercased alphanumeric words of a string: split on every character
that is not alphanumeric, lowercase the rest, drop empty runs. -/
def wordsAux : List Char → List Char → List (List Char)
  | [], acc => if acc = [] then [] else [acc.reverse]
  | c :: rest, acc =>
      if c.isAlphanum then wordsAux rest (c.toLower :: acc)
      else if acc = [] then wordsAux rest [] else acc.reverse :: wordsAux rest []

/-- The whole words of a question, lowercased. -/
def questionWords (q : String) : List (List Char) :=
  wordsAux q.toList []

/-- Modelled from the spec: count whole-word, case-insensitive matches
of any keyword of a domain within the question. -/
def keywordCount (q : String) (kws : List String) : Nat :=
  ((questionWords q).filter
    (fun w => kws.any (fun kw => kw.toList.map Char.toLower == w))).length

/-- Modelled from the spec: a keyword table maps each domain tag to its
fixed list of associated keywords. -/
abbrev KeywordTable := List (String × List String)

/-- The maximum keyword-match count over all domains of the table. -/
def maxMatchCount (table : KeywordTable) (q : String) : Nat :=
  (table.map (fun p => keywordCount q p.2)).foldr max 0

/-- Modelled from the spec: the domain classifier. A domain is detected
when its match count equals the maximum over all domains and that
maximum is at least one; on a tie every domain at the maximum is
included; when the maximum is zero the set is empty. -/
def classify (table : KeywordTable) (q : String) : List String :=
  if maxMatchCount table q = 0 then []
  else (table.filter
    (fun p => keywordCount q p.2 == maxMatchCount table q)).map Prod.fst

/-- Modelled from the spec: a concrete keyword table in the shape the
taxonomy uses, one entry per domain of DOMAINS. -/
def domainKeywords : KeywordTable :=
  [("eligibility", ["eligibility", "eligible", "member", "enrollment"]),
   ("claims", ["claim", "claims", "denial", "denied"]),
   ("benefits", ["benefit", "benefits", "copay", "deductible"]),
   ("pharmacy", ["pharmacy", "drug", "medication", "formulary"]),
   ("compliance", ["compliance", "hipaa", "regulation", "audit"]),
   ("providers", ["provider", "providers", "physician", "network"])]

/-- Modelled from the spec: the structured retrieval filter; none on a
field means any (no restriction). -/
structure RetrievalFilter where
  domain : Option String
  sourceType : Option String
  classification : Option String
deriving DecidableEq, Repr

/-- Modelled from the spec: the retrieval filter builder. An explicit
user-supplied value always wins over classifier output; with no explicit
domain, a single detected domain restricts and anything else leaves the
domain unrestricted; source type and classification pass through
verbatim from explicit input only. -/
def buildFilter (explicitDomain explicitSourceType explicitClassification :
    Option String) (detected : List String) : RetrievalFilter :=
  { domain :=
      match explicitDomain with
      | some v => some v
      | none =>
        match detected with
        | [d] => some d
        | _ => none
    sourceType := explicitSourceType
    classification := explicitClassification }

/-- Modelled from the spec: the per-document character budget applied
when assembling context. -/
def contextCharBudget : Nat := 1500

/-- Modelled from the spec: the context assembler, iterating matches in
order from a starting citation index, assigning consecutive indices and
truncating each text to the character budget. -/
def assembleFrom (idx : Nat) : List MatchRec → List ContextEntry
  | [] => []
  | mt :: rest =>
      { citationIndex := idx
        text := mt.document.text.take contextCharBudget
        document := mt.document } :: assembleFrom (idx + 1) rest

/-- Modelled from the spec: assemble(matches) starts the citation
indices at 1. -/
def assemble (ms : List MatchRec) : List ContextEntry :=
  assembleFrom 1 ms

/-- Modelled from the spec: the fixed insufficient-information answer the
generator returns on an empty context, produced without the provider. -/
def insufficientInfoAnswer : String :=
  "No relevant information was found in the available sources to answer this question."

/-- Modelled from the spec: the fixed low generation temperature. -/
def genTemperature : Rat := 3 / 10

/-- Modelled from the spec: the grounded prompt, embedding each context
entry labeled by its citation index and the question verbatim. -/
def buildPrompt (question : String) (context : List ContextEntry) : String :=
  "Answer only from the supplied context.\n"
    ++ String.join (context.map (fun e =>
        "[" ++ toString e.citationIndex ++ "] " ++ e.text ++ "\n"))
    ++ "Question: " ++ question

/-- The outcome of the answer generator: the text together with how many
times the external generation provider was invoked. -/
structure GenOutcome where
  text : String
  providerCalls : Nat
deriving DecidableEq, Repr

/-- Modelled from the spec: the answer generator. On an empty context it
returns the insufficient-information answer without invoking the
external provider; otherwise it invokes the provider once on the
grounded prompt at the fixed temperature and returns the raw text. -/
def generate (provider : String → Rat → String) (question : String)
    (context : List ContextEntry) : GenOutcome :=
  if context.isEmpty then
    { text := insufficientInfoAnswer, providerCalls := 0 }
  else
    { text := provider (buildPrompt question context) genTemperature
      providerCalls := 1 }

/-- The outcome of one orchestrator run: the final result together with
how many times the generation provider was invoked. -/
structure ExecOutcome where
  result : QueryResult
  providerCalls : Nat
deriving DecidableEq, Repr

/-- Modelled from the spec: the query orchestrator. It classifies the
question, builds the filter, retrieves matches through the search
capability, assembles the context, generates the answer and constructs
the result, with elapsed time taken from the recorded start and end
times. -/
def execute (search : RetrievalFilter → Nat → List MatchRec)
    (provider : String → Rat → String) (question : String)
    (explicitDomain explicitSourceType explicitClassification : Option String)
    (topK : Nat) (startTime endTime : Rat) : ExecOutcome :=
  let detected := classify domainKeywords question
  let filter := buildFilter explicitDomain explicitSourceType
    explicitClassification detected
  let retrieved := search filter topK
  let context := assemble retrieved
  let gen := generate provider question context
  { result :=
      { question := question
        answer := gen.text
        sources := retrieved.map (fun mt =>
          { id := mt.document.id
            score := mt.similarityScore
            domain := mt.document.domain
            source := mt.document.sourcePath })
        domains_searched :=
          match filter.domain with
          | some d => [d]
          | none => []
        query_time_seconds := endTime - startTime }
    providerCalls := gen.providerCalls }

/-- The 1-based labeling of source cards in QueryResult.tsx: the source
at 0-based position i is rendered with index i + 1. -/
def labelFrom (idx : Nat) : List Source → List (Nat × Source)
  | [] => []
  | s :: rest => (idx, s) :: labelFrom (idx + 1) rest

/-- sources.map((source, i) => SourceCard with index i + 1). -/
def renderedSourceCards (sources : List Source) : List (Nat × Source) :=
  labelFrom 1 sources

/-- A concrete document used to exercise the pipeline on small inputs. -/
def docExample : Document :=
  { id := "claims-001"
    text := "Claim 123 was denied for missing prior authorization."
    domain := "claims"
    sourceType := "internal"
    classification := "PII"
    sourcePath := "data/claims.csv" }

/-- A concrete retrieval match over docExample. -/
def matchExample : MatchRec :=
  { document := docExample, similarityScore := 9 / 10 }

/-- A concrete rendered source over docExample. -/
def sourceExample : Source :=
  { id := "claims-001", score := 9 / 10, domain := "claims"
    source := "data/claims.csv" }

/-- A concrete history entry. -/
def itemA : QueryHistoryItem :=
  { id := "a", question := "q1", answer := "ans1", sources_count := 2
    query_time_seconds := 1, timestamp := "t1", bookmarked := false }

/-- A second concrete history entry with a distinct id. -/
def itemB : QueryHistoryItem :=
  { id := "b", question := "q2", answer := "ans2", sources_count := 0
    query_time_seconds := 2, timestamp := "t2", bookmarked := false }

/-! ### Helper lemmas -/

/-- Composing the two JavaScript falsy coercions on a store filter field:
the empty string becomes null and every other value passes through. -/
theorem jsOrNull_jsUndef (v : String) :
    jsOrNull (jsUndef v) = if v = "" then none else some v := by
  unfold jsOrNull jsUndef
  by_cases h : v = "" <;> simp [h]

/-- A nonempty string has length at least one. -/
theorem one_le_length_of_ne_empty (t : String) (h : t ≠ "") : 1 ≤ t.length := by
  cases t with
  | mk data =>
    cases data with
    | nil => exact absurd rfl h
    | cons c cs => simp [String.length]

/-- assembleFrom preserves the number of matches. -/
theorem assembleFrom_length (idx : Nat) (ms : List MatchRec) :
    (assembleFrom idx ms).length = ms.length := by
  induction ms generalizing idx with
  | nil => rfl
  | cons mt rest ih => simp [assembleFrom, ih]

/-- The entry of assembleFrom at position i carries citation index
idx + i and the document of the match at position i. -/
theorem assembleFrom_getElem? (idx i : Nat) (ms : List MatchRec) :
    (assembleFrom idx ms)[i]? =
      (ms[i]?).map (fun mt =>
        { citationIndex := idx + i
          text := mt.document.text.take contextCharBudget
          document := mt.document }) := by
  induction ms generalizing idx i with
  | nil => simp [assembleFrom]
  | cons mt rest ih =>
    cases i with
    | zero => simp [assembleFrom]
    | succ n =>
      have h1 : idx + 1 + n = idx + (n + 1) := by omega
      simp only [assembleFrom, List.getElem?_cons_succ, ih (idx + 1) n, h1]

/-- labelFrom preserves the number of sources. -/
theorem labelFrom_length (idx : Nat) (ss : List Source) :
    (labelFrom idx ss).length = ss.length := by
  induction ss generalizing idx with
  | nil => rfl
  | cons sc rest ih => simp [labelFrom, ih]

/-- The label of labelFrom at position i is idx + i with the source at
position i. -/
theorem labelFrom_getElem? (idx i : Nat) (ss : List Source) :
    (labelFrom idx ss)[i]? = (ss[i]?).map (fun sc => (idx + i, sc)) := by
  induction ss generalizing idx i with
  | nil => simp [labelFrom]
  | cons sc rest ih =>
    cases i with
    | zero => simp [labelFrom]
    | succ n =>
      have h1 : idx + 1 + n = idx + (n + 1) := by omega
      simp only [labelFrom, List.getElem?_cons_succ, ih (idx + 1) n, h1]

/-- Toggling one item twice restores it. -/
theorem toggleItem_involutive (uid : String) (item : QueryHistoryItem) :
    toggleItem uid (toggleItem uid item) = item := by
  cases item with
  | mk iid q a sc qt ts bm =>
    by_cases hcase : iid = uid <;> simp [toggleItem, hcase]

/-- An item whose id differs is untouched by toggleItem. -/
theorem toggleItem_ne (uid : String) (item : QueryHistoryItem)
    (hne : item.id ≠ uid) : toggleItem uid item = item := by
  simp [toggleItem, hne]

/-! ### Claims -/

/-- C1: when the underlying api.query request of executeQuery fails, the
store ends with error set to the failure detail and isLoading false, the
history and the current result are unchanged (no QueryResult is
produced), and the QueryResult component renders the explicit error
state. The hypothesis that the failure detail is nonempty reflects the
JavaScript truthiness test on error in the component; every message
thrown by fetchAPI is nonempty by construction. -/
theorem claim_C1_query_failure (s : QueryStoreState)
    (question msg newId ts : String) (hmsg : msg ≠ "") :
    (executeQueryFinish (Except.error msg) newId ts
        (executeQueryStart question s)).error = some msg
    ∧ (executeQueryFinish (Except.error msg) newId ts
        (executeQueryStart question s)).isLoading = false
    ∧ (executeQueryFinish (Except.error msg) newId ts
        (executeQueryStart question s)).history = s.history
    ∧ (executeQueryFinish (Except.error msg) newId ts
        (executeQueryStart question s)).currentResult = s.currentResult
    ∧ renderQueryResult (executeQueryFinish (Except.error msg) newId ts
        (executeQueryStart question s)) = QueryView.errorView msg := by
  refine ⟨rfl, rfl, rfl, rfl, ?_⟩
  simp [executeQueryFinish, executeQueryStart, renderQueryResult, hmsg]

/-- C1 witness: a concrete failing call with a concrete failure detail. -/
theorem claim_C1_query_failure_witness :
    ("API error 500: boom" : String) ≠ ""
    ∧ renderQueryResult (executeQueryFinish
        (Except.error "API error 500: boom") "id1" "t1"
        (executeQueryStart "q" initialState))
      = QueryView.errorView "API error 500: boom" :=
  ⟨by decide,
   (claim_C1_query_failure initialState "q" "API error 500: boom" "id1" "t1"
      (by decide)).2.2.2.2⟩

/-- C2: a client query without a caller-specified top_k, and in
particular every executeQuery call, sends top_k equal to exactly 10. -/
theorem claim_C2_topk_is_ten (question : String) (s : QueryStoreState)
    (d st c : Option String) :
    (apiQuery question none d st c).top_k = 10
    ∧ (executeQueryRequest question s).top_k = 10 :=
  ⟨rfl, rfl⟩

/-- C4: the frontend forwards each nonempty explicit filter verbatim and
maps an empty selection to null, and the spec-modelled filter builder
lets an explicit value win: with an explicit domain the output domain
equals it whatever the classifier detected, and source type and
classification pass through verbatim. -/
theorem claim_C4_explicit_filters_win (question : String)
    (s : QueryStoreState) (v : String) (est ecl : Option String)
    (detected : List String) :
    (executeQueryRequest question s).domain_filter
      = (if s.domainFilter = "" then none else some s.domainFilter)
    ∧ (executeQueryRequest question s).source_type_filter
      = (if s.sourceTypeFilter = "" then none else some s.sourceTypeFilter)
    ∧ (executeQueryRequest question s).classification_filter
      = (if s.classificationFilter = "" then none else some s.classificationFilter)
    ∧ (buildFilter (some v) est ecl detected).domain = some v
    ∧ (buildFilter (some v) est ecl detected).sourceType = est
    ∧ (buildFilter (some v) est ecl detected).classification = ecl :=
  ⟨jsOrNull_jsUndef s.domainFilter, jsOrNull_jsUndef s.sourceTypeFilter,
   jsOrNull_jsUndef s.classificationFilter, rfl, rfl, rfl⟩

/-- C3 counterexample: the classification select offers the concrete
value PII, and submitting with it sends classification_filter equal to
PII, which is neither null nor restricted nor public — the claimed value
range restricted/public does not match the code. -/
theorem claim_C3_counterexample :
    "PII" ∈ classificationOptions
    ∧ ¬ ((executeQueryRequest "q"
          { initialState with classificationFilter := "PII" }).classification_filter = none
        ∨ (executeQueryRequest "q"
          { initialState with classificationFilter := "PII" }).classification_filter = some "restricted"
        ∨ (executeQueryRequest "q"
          { initialState with classificationFilter := "PII" }).classification_filter = some "public") := by
  decide

/-- C3 amended: the classification filter field ranges over exactly PII
and public (absence meaning any): whenever the selected classification
is one of the offered options, the classification_filter sent with the
request is null, PII, or public. -/
theorem claim_C3_classification_range (question : String)
    (s : QueryStoreState) (h : s.classificationFilter ∈ classificationOptions) :
    (executeQueryRequest question s).classification_filter = none
    ∨ (executeQueryRequest question s).classification_filter = some "PII"
    ∨ (executeQueryRequest question s).classification_filter = some "public" := by
  simp only [classificationOptions, List.mem_cons, List.not_mem_nil,
    or_false] at h
  rcases h with h | h | h
  · left; simp [executeQueryRequest, apiQuery, jsUndef, jsOrNull, h]
  · right; left; simp [executeQueryRequest, apiQuery, jsUndef, jsOrNull, h]
  · right; right; simp [executeQueryRequest, apiQuery, jsUndef, jsOrNull, h]

/-- C3 amended witness: the PII option sends the concrete value PII. -/
theorem claim_C3_classification_range_witness :
    ({ initialState with classificationFilter := "PII" } :
        QueryStoreState).classificationFilter ∈ classificationOptions
    ∧ ((executeQueryRequest "q"
          { initialState with classificationFilter := "PII" }).classification_filter = none
       ∨ (executeQueryRequest "q"
          { initialState with classificationFilter := "PII" }).classification_filter = some "PII"
       ∨ (executeQueryRequest "q"
          { initialState with classificationFilter := "PII" }).classification_filter = some "public") :=
  ⟨by decide,
   claim_C3_classification_range "q"
     { initialState with classificationFilter := "PII" } (by decide)⟩

/-- C8: a form submission whose question text trims to empty never calls
executeQuery, and when a submission does go through, the question sent
is the trimmed input and has length at least one. -/
theorem claim_C8_submit_validation (s : QueryStoreState) (q : String) :
    (jsTrim s.currentQuery = "" → handleSubmit s = none)
    ∧ (handleSubmit s = some q →
        q = jsTrim s.currentQuery ∧ 1 ≤ q.length) := by
  constructor
  · intro hempty
    unfold handleSubmit
    simp [hempty]
  · intro hsub
    unfold handleSubmit at hsub
    by_cases hcond : jsTrim s.currentQuery ≠ "" ∧ s.isLoading = false
    · rw [if_pos hcond] at hsub
      have hq : q = jsTrim s.currentQuery := (Option.some.injEq _ _).mp hsub.symm
      exact ⟨hq, hq ▸ one_le_length_of_ne_empty _ hcond.1⟩
    · rw [if_neg hcond] at hsub
      exact absurd hsub (by simp)

/-- C8 witness: a whitespace-only question is not submitted, and a
padded question is submitted trimmed with positive length. -/
theorem claim_C8_submit_validation_witness :
    handleSubmit { initialState with currentQuery := "   " } = none
    ∧ ("hi" : String) = jsTrim ({ initialState with
        currentQuery := "  hi " } : QueryStoreState).currentQuery
    ∧ 1 ≤ ("hi" : String).length :=
  ⟨(claim_C8_submit_validation
      { initialState with currentQuery := "   " } "x").1 (by decide),
   (claim_C8_submit_validation
      { initialState with currentQuery := "  hi " } "hi").2 (by decide)⟩

/-- C5: assemble produces one entry per match, the entry at 0-based
position i carries citation index i + 1 and the document of the match
at position i, and the presentation layer labels the source at 0-based
position i with index i + 1. -/
theorem claim_C5_citation_correspondence (ms : List MatchRec)
    (ss : List Source) (i j : Nat) (hi : i < ms.length)
    (hj : j < ss.length) :
    (assemble ms).length = ms.length
    ∧ ((assemble ms)[i]?).map ContextEntry.citationIndex = some (i + 1)
    ∧ ((assemble ms)[i]?).map ContextEntry.document
      = (ms[i]?).map MatchRec.document
    ∧ (renderedSourceCards ss).length = ss.length
    ∧ (renderedSourceCards ss)[j]? = (ss[j]?).map (fun sc => (j + 1, sc)) := by
  have hms : (assemble ms)[i]? =
      (ms[i]?).map (fun mt =>
        { citationIndex := 1 + i
          text := mt.document.text.take contextCharBudget
          document := mt.document }) := assembleFrom_getElem? 1 i ms
  have hsome : ms[i]? = some (ms.get ⟨i, hi⟩) := List.getElem?_eq_getElem hi
  refine ⟨assembleFrom_length 1 ms, ?_, ?_, labelFrom_length 1 ss, ?_⟩
  · rw [hms, hsome]
    simp [Nat.add_comm 1 i]
  · rw [hms, hsome]
    simp
  · unfold renderedSourceCards
    rw [labelFrom_getElem? 1 j ss]
    simp [Nat.add_comm 1 j]

/-- C5 witness: a one-match list assembles to one entry with citation
index 1 and the source card at position 0 is labeled 1. -/
theorem claim_C5_citation_correspondence_witness :
    (assemble [matchExample]).length = 1
    ∧ ((assemble [matchExample])[0]?).map ContextEntry.citationIndex = some 1
    ∧ (renderedSourceCards [sourceExample])[0]? = some (1, sourceExample) := by
  obtain ⟨h1, h2, h3, h4, h5⟩ :=
    claim_C5_citation_correspondence [matchExample] [sourceExample] 0 0
      (by decide) (by decide)
  exact ⟨h1, h2, by simpa using h5⟩

/-- C6: when retrieval returns zero matches, execute still produces a
result: empty sources, the fixed nonempty insufficient-information
answer generated with zero provider invocations, and a positive
recorded elapsed time. -/
theorem claim_C6_empty_retrieval (search : RetrievalFilter → Nat → List MatchRec)
    (provider : String → Rat → String) (question : String)
    (ed est ecl : Option String) (topK : Nat) (t0 t1 : Rat)
    (hempty : search (buildFilter ed est ecl
        (classify domainKeywords question)) topK = [])
    (ht : t0 < t1) :
    (execute search provider question ed est ecl topK t0 t1).result.sources = []
    ∧ (execute search provider question ed est ecl topK t0 t1).result.answer
      = insufficientInfoAnswer
    ∧ insufficientInfoAnswer ≠ ""
    ∧ (execute search provider question ed est ecl topK t0 t1).providerCalls = 0
    ∧ 0 < (execute search provider question ed est ecl topK t0 t1).result.query_time_seconds := by
  refine ⟨?_, ?_, by decide, ?_, ?_⟩
  · simp [execute, hempty]
  · simp [execute, hempty, assemble, assembleFrom, generate]
  · simp [execute, hempty, assemble, assembleFrom, generate]
  · simp only [execute]
    exact sub_pos.mpr ht

/-- C6 witness: an always-empty search capability at concrete times. -/
theorem claim_C6_empty_retrieval_witness :
    (execute (fun _ _ => []) (fun _ _ => "") "q" none none none 10 0 1).result.sources = []
    ∧ (execute (fun _ _ => []) (fun _ _ => "") "q" none none none 10 0 1).result.answer
      = insufficientInfoAnswer
    ∧ (execute (fun _ _ => []) (fun _ _ => "") "q" none none none 10 0 1).providerCalls = 0
    ∧ 0 < (execute (fun _ _ => []) (fun _ _ => "") "q" none none none 10 0 1).result.query_time_seconds := by
  obtain ⟨h1, h2, h3, h4, h5⟩ :=
    claim_C6_empty_retrieval (fun _ _ => []) (fun _ _ => "") "q"
      none none none 10 0 1 rfl (by norm_num)
  exact ⟨h1, h2, h4, h5⟩

/-- C7: when two or more domains are tied at the maximum keyword-match
count and that maximum is at least one, classify includes every domain
tied at the maximum, and its output is exactly the set of domains whose
count attains the maximum. -/
theorem claim_C7_tie_includes_all (table : KeywordTable) (q : String)
    (d1 d2 : String) (k1 k2 : List String)
    (hmax : 1 ≤ maxMatchCount table q)
    (h1 : (d1, k1) ∈ table) (h2 : (d2, k2) ∈ table)
    (hc1 : keywordCount q k1 = maxMatchCount table q)
    (hc2 : keywordCount q k2 = maxMatchCount table q) :
    d1 ∈ classify table q ∧ d2 ∈ classify table q
    ∧ ∀ d, d ∈ classify table q ↔
        ∃ kws, (d, kws) ∈ table
          ∧ keywordCount q kws = maxMatchCount table q := by
  have hne : ¬ maxMatchCount table q = 0 := by omega
  have hchar : ∀ d, d ∈ classify table q ↔
      ∃ kws, (d, kws) ∈ table
        ∧ keywordCount q kws = maxMatchCount table q := by
    intro d
    unfold classify
    rw [if_neg hne]
    simp only [List.mem_map, List.mem_filter, beq_iff_eq]
    constructor
    · rintro ⟨⟨a, b⟩, ⟨hmem, hcnt⟩, rfl⟩
      exact ⟨b, hmem, hcnt⟩
    · rintro ⟨kws, hmem, hcnt⟩
      exact ⟨(d, kws), ⟨hmem, hcnt⟩, rfl⟩
  exact ⟨(hchar d1).mpr ⟨k1, h1, hc1⟩, (hchar d2).mpr ⟨k2, h2, hc2⟩, hchar⟩

/-- C7 witness: the question mentions one claims keyword and one
pharmacy keyword, the maximum count is one, and both tied domains are
returned. -/
theorem claim_C7_tie_includes_all_witness :
    "claims" ∈ classify domainKeywords "claim drug"
    ∧ "pharmacy" ∈ classify domainKeywords "claim drug" := by
  obtain ⟨ha, hb, _⟩ :=
    claim_C7_tie_includes_all domainKeywords "claim drug"
      "claims" "pharmacy"
      ["claim", "claims", "denial", "denied"]
      ["pharmacy", "drug", "medication", "formulary"]
      (by decide) (by decide) (by decide) (by decide) (by decide)
  exact ⟨ha, hb⟩

/-- C9: a successful executeQuery prepends exactly one entry at the
front of the history, with bookmarked false, sources_count equal to the
result sources length and question, answer and elapsed time copied from
the result; the history stays capped at 100 entries; and the other
history operations never grow it. -/
theorem claim_C9_history_invariants (s : QueryStoreState) (r : QueryResult)
    (newId ts uid : String) (hlen : s.history.length ≤ 100) :
    (executeQueryFinish (Except.ok r) newId ts s).history
      = (mkHistoryItem newId ts r :: s.history).take 100
    ∧ (executeQueryFinish (Except.ok r) newId ts s).history.length ≤ 100
    ∧ (executeQueryFinish (Except.ok r) newId ts s).history.head?
      = some (mkHistoryItem newId ts r)
    ∧ (mkHistoryItem newId ts r).bookmarked = false
    ∧ (mkHistoryItem newId ts r).sources_count = r.sources.length
    ∧ (mkHistoryItem newId ts r).question = r.question
    ∧ (mkHistoryItem newId ts r).answer = r.answer
    ∧ (mkHistoryItem newId ts r).query_time_seconds = r.query_time_seconds
    ∧ (toggleBookmark uid s).history.length = s.history.length
    ∧ (deleteHistoryItem uid s).history.length ≤ s.history.length
    ∧ (clearHistory s).history.length = 0
    ∧ (toggleBookmark uid s).history.length ≤ 100
    ∧ (deleteHistoryItem uid s).history.length ≤ 100 := by
  have htoggle : (toggleBookmark uid s).history.length = s.history.length := by
    simp [toggleBookmark, toggleBookmarkList]
  have hdel : (deleteHistoryItem uid s).history.length ≤ s.history.length :=
    List.length_filter_le _ s.history
  refine ⟨rfl, ?_, ?_, rfl, rfl, rfl, rfl, rfl, htoggle, hdel, rfl,
    htoggle ▸ hlen, le_trans hdel hlen⟩
  · simp [executeQueryFinish]
  · show ((mkHistoryItem newId ts r :: s.history).take 100).head? = _
    rw [List.take_succ_cons]
    rfl

/-- C9 witness: a concrete store with a two-entry history. -/
theorem claim_C9_history_invariants_witness :
    ({ initialState with history := [itemA, itemB] } :
        QueryStoreState).history.length ≤ 100
    ∧ (executeQueryFinish (Except.ok
          { question := "q", answer := "a", sources := [sourceExample],
            domains_searched := ["claims"], query_time_seconds := 1 })
          "id9" "t9"
          { initialState with history := [itemA, itemB] }).history.head?
      = some (mkHistoryItem "id9" "t9"
          { question := "q", answer := "a", sources := [sourceExample],
            domains_searched := ["claims"], query_time_seconds := 1 }) :=
  ⟨by decide,
   (claim_C9_history_invariants
      { initialState with history := [itemA, itemB] }
      { question := "q", answer := "a", sources := [sourceExample],
        domains_searched := ["claims"], query_time_seconds := 1 }
      "id9" "t9" "a" (by decide)).2.2.1⟩

/-- C10: toggleBookmark applied twice restores the history; when no
entry carries the id the history is unchanged; the length is preserved;
and when the ids are pairwise distinct and the entry at position i
carries the id, that entry alone has its bookmarked flag flipped while
every other entry and every other field is unchanged. -/
theorem claim_C10_toggle_bookmark (h : List QueryHistoryItem) (uid : String)
    (hnd : (h.map QueryHistoryItem.id).Nodup) :
    toggleBookmarkList uid (toggleBookmarkList uid h) = h
    ∧ ((∀ item ∈ h, item.id ≠ uid) → toggleBookmarkList uid h = h)
    ∧ (toggleBookmarkList uid h).length = h.length
    ∧ ∀ i (hi : i < h.length), (h.get ⟨i, hi⟩).id = uid →
        ((toggleBookmarkList uid h)[i]?
            = some { h.get ⟨i, hi⟩ with
                     bookmarked := !(h.get ⟨i, hi⟩).bookmarked }
          ∧ ∀ j (hj : j < h.length), j ≠ i →
              (toggleBookmarkList uid h)[j]? = h[j]?) := by
  refine ⟨?_, ?_, by simp [toggleBookmarkList], ?_⟩
  · unfold toggleBookmarkList
    rw [List.map_map]
    have hcomp : toggleItem uid ∘ toggleItem uid = id :=
      funext (toggleItem_involutive uid)
    rw [hcomp, List.map_id]
  · intro habs
    unfold toggleBookmarkList
    have : ∀ item ∈ h, toggleItem uid item = item := fun item hmem =>
      toggleItem_ne uid item (habs item hmem)
    rw [List.map_congr_left this]
    simp
  · intro i hi hid
    have hid2 : h[i].id = uid := by simpa using hid
    constructor
    · rw [toggleBookmarkList, List.getElem?_map,
        List.getElem?_eq_getElem hi]
      simp [toggleItem, hid2, List.get_eq_getElem]
    · intro j hj hji
      have hne : h[j].id ≠ uid := by
        intro hjid
        apply hji
        have hinj := List.nodup_iff_injective_get.mp hnd
        have hgi : (h.map QueryHistoryItem.id).get
            ⟨i, by simpa using hi⟩ = uid := by
          simpa using hid2
        have hgj : (h.map QueryHistoryItem.id).get
            ⟨j, by simpa using hj⟩ = uid := by
          simpa using hjid
        have := hinj (hgj.trans hgi.symm)
        simpa using this
      rw [toggleBookmarkList, List.getElem?_map,
        List.getElem?_eq_getElem hj]
      simp [toggleItem_ne uid _ hne]

/-- C10 witness: toggling the entry with id b in a two-entry history
flips it alone, leaves the first entry in place, and toggling twice
restores the history. -/
theorem claim_C10_toggle_bookmark_witness :
    toggleBookmarkList "b" (toggleBookmarkList "b" [itemA, itemB])
      = [itemA, itemB]
    ∧ (toggleBookmarkList "b" [itemA, itemB])[1]?
      = some { itemB with bookmarked := true }
    ∧ (toggleBookmarkList "b" [itemA, itemB])[0]? = [itemA, itemB][0]? := by
  obtain ⟨h1, h2, h3, h4⟩ :=
    claim_C10_toggle_bookmark [itemA, itemB] "b" (by decide)
  obtain ⟨h5, h6⟩ := h4 1 (by decide) (by decide)
  exact ⟨h1, by simpa using h5, h6 0 (by decide) (by decide)⟩

end HealthHub
